import Mathlib

/-!
Verification development for the fast3d/graphics command-interpreter core of
the helix repository.  The Rust sources under consideration are
src/fast3d/rdp.rs, src/fast3d/rcp.rs, src/graphics/rdp.rs and
src/graphics/gbi.rs.  Pure fragments are embedded as Lean functions; the
stateful render-state diffing code is embedded as explicit state passing
that additionally returns the ordered list of backend calls emitted and a
ghost log of the batch-buffer counters observed at each snapshot overwrite.
Rust panics are modelled with Option, none standing for a panic (process
abort).  Machine integers (u32 bitfields, usize counters) are modelled as
Nat; every bitfield access masks exactly as the source does, so no overflow
correction is needed.
-/

/-- Embedding of wgpu::CompareFunction (only the constructors the source
uses are listed; the source touches Always, Less and LessEqual). -/
inductive CompareFunction where
  | Never
  | Less
  | Equal
  | LessEqual
  | Greater
  | NotEqual
  | GreaterEqual
  | Always
deriving DecidableEq, Repr

/-- Embedding of wgpu::BlendFactor (constructors the source uses). -/
inductive BlendFactor where
  | Zero
  | One
  | SrcAlpha
  | OneMinusSrcAlpha
  | DstAlpha
deriving DecidableEq, Repr

/-- Embedding of wgpu::BlendOperation (the source only ever builds Add). -/
inductive BlendOperation where
  | Add
deriving DecidableEq, Repr

/-- Embedding of wgpu::BlendComponent. -/
structure BlendComponent where
  src_factor : BlendFactor
  dst_factor : BlendFactor
  operation : BlendOperation
deriving DecidableEq, Repr

/-- Embedding of wgpu::BlendState. -/
structure BlendState where
  color : BlendComponent
  alpha : BlendComponent
deriving DecidableEq, Repr

/-- wgpu::BlendState::REPLACE - source one, destination zero, add. -/
def BlendState.REPLACE : BlendState :=
  { color := { src_factor := .One, dst_factor := .Zero, operation := .Add }
    alpha := { src_factor := .One, dst_factor := .Zero, operation := .Add } }

/-- Embedding of Rect from src/fast3d/rdp.rs (u16 fields as Nat). -/
structure Rect where
  x : Nat
  y : Nat
  width : Nat
  height : Nat
deriving DecidableEq, Repr

/-- Rect::ZERO. -/
def Rect.ZERO : Rect := { x := 0, y := 0, width := 0, height := 0 }

/-- Embedding of RenderingState from src/fast3d/rdp.rs.  The shader
program pointer (*mut ShaderProgram) is modelled as Option Nat with none
for the null pointer.  The textures array is not modelled: no claim under
consideration reads it.  Remaining fields are verbatim. -/
structure RenderingState where
  depth_compare : CompareFunction
  depth_test : Bool
  depth_write : Bool
  polygon_offset : Bool
  blend_state : BlendState
  viewport : Rect
  scissor : Rect
  shader_program : Option Nat
deriving DecidableEq, Repr

/-- RenderingState::EMPTY. -/
def RenderingState.EMPTY : RenderingState :=
  { depth_compare := .Always
    depth_test := false
    depth_write := false
    polygon_offset := false
    blend_state := BlendState.REPLACE
    viewport := Rect.ZERO
    scissor := Rect.ZERO
    shader_program := none }

/-- Embedding of the RDP struct fields that the render-state diffing,
batching and reset code of src/fast3d/rdp.rs touches.  The texture
manager, tile descriptors, TMEM map and color-combiner manager are not
modelled; the contents of buf_vbo are not modelled (the claims concern
only its length and the triangle count, with the declared capacity
MAX_VBO_SIZE * 26 * 3 floats). -/
structure RDPState where
  rendering_state : RenderingState
  viewport : Rect
  scissor : Rect
  viewport_or_scissor_changed : Bool
  other_mode_l : Nat
  other_mode_h : Nat
  buf_vbo_len : Nat
  buf_vbo_num_tris : Nat
deriving DecidableEq, Repr

/-- MAX_VBO_SIZE from src/fast3d/rdp.rs. -/
def MAX_VBO_SIZE : Nat := 256

/-- The declared capacity of buf_vbo in floats: 3 vertices per triangle,
26 floats per vertex (the array type is [f32; MAX_VBO_SIZE * (26 * 3)]). -/
def BUF_VBO_CAPACITY : Nat := MAX_VBO_SIZE * (26 * 3)

/-- RDP::new from src/fast3d/rdp.rs, restricted to the fields modelled. -/
def RDP.new : RDPState :=
  { rendering_state := RenderingState.EMPTY
    viewport := Rect.ZERO
    scissor := Rect.ZERO
    viewport_or_scissor_changed := false
    other_mode_l := 0
    other_mode_h := 0
    buf_vbo_len := 0
    buf_vbo_num_tris := 0 }

/-- RDP::reset from src/fast3d/rdp.rs: the body is empty, so the state is
returned unchanged. -/
def RDP.reset (s : RDPState) : RDPState := s

/-- The ordered backend calls (GraphicsContext api) that the embedded code
emits; draw_triangles carries the submitted length and triangle count. -/
inductive GfxCall where
  | draw_triangles (len : Nat) (tris : Nat)
  | set_depth_compare (c : CompareFunction)
  | set_depth_write (b : Bool)
  | set_polygon_offset (b : Bool)
  | set_depth_test (b : Bool)
  | set_blend_state (b : BlendState)
  | set_viewport (r : Rect)
  | set_scissor (r : Rect)
  | unload_shader (h : Option Nat)
  | create_and_load_new_shader (id : Nat)
deriving DecidableEq, Repr

/-- RDP::flush from src/fast3d/rdp.rs: if buf_vbo_len is positive, submit
the batch with draw_triangles and zero the length and triangle count. -/
def RDP.flush (s : RDPState) : RDPState × List GfxCall :=
  if s.buf_vbo_len > 0 then
    ({ s with buf_vbo_len := 0, buf_vbo_num_tris := 0 },
     [.draw_triangles s.buf_vbo_len s.buf_vbo_num_tris])
  else
    (s, [])

/-- The guarded-update pattern repeated throughout translate_blend_mode and
update_render_state: when the newly required value differs from the
snapshot, flush first, issue the backend call, then overwrite the snapshot.
The third component is a ghost log recording (buf_vbo_len,
buf_vbo_num_tris) at the moment the snapshot is overwritten. -/
def guardedUpdate (s : RDPState) (changed : Prop) [Decidable changed]
    (apply : RenderingState → RenderingState) (call : GfxCall) :
    RDPState × List GfxCall × List (Nat × Nat) :=
  if changed then
    let fr := RDP.flush s
    ({ fr.1 with rendering_state := apply fr.1.rendering_state },
     fr.2 ++ [call],
     [(fr.1.buf_vbo_len, fr.1.buf_vbo_num_tris)])
  else
    (s, [], [])

/-- RDP::translate_blend_param_b from src/fast3d/rdp.rs.  The catch-all
panic arm is modelled as none. -/
def RDP.translate_blend_param_b (param : Nat) (src : BlendFactor) :
    Option BlendFactor :=
  if param = 0 then -- BlendParamB::G_BL_1MA
    some (if src = .SrcAlpha then .OneMinusSrcAlpha
          else if src = .One then .Zero
          else .One)
  else if param = 1 then some .DstAlpha -- BlendParamB::G_BL_A_MEM
  else if param = 2 then some .One -- BlendParamB::G_BL_1
  else if param = 3 then some .Zero -- BlendParamB::G_BL_0
  else none

/-- The depth-compare block of RDP::translate_blend_mode from
src/fast3d/rdp.rs, gated on the Z_CMP bit (bit 4) of other_mode_l.  Bit
offsets follow the OtherModeLayoutL enum of the source.  The match arms
are ZMODE_OPA = 0, ZMODE_INTER = 1, ZMODE_XLU = 2 (all Less) and
ZMODE_DEC = 3 (LessEqual); zmode is masked to two bits at the call site,
so the source's panic arm for other values is unreachable and the four
Less and LessEqual arms are written as a single conditional here. -/
def RDP.depth_compare_stage (s0 : RDPState) (zmode : Nat) :
    RDPState × List GfxCall × List (Nat × Nat) :=
  if s0.other_mode_l &&& (1 <<< 4) ≠ 0 then
    guardedUpdate s0
      ((if zmode = 3 then CompareFunction.LessEqual else .Less) ≠
        s0.rendering_state.depth_compare)
      (fun rs => { rs with depth_compare :=
        if zmode = 3 then .LessEqual else .Less })
      (.set_depth_compare (if zmode = 3 then .LessEqual else .Less))
  else (s0, [], [])

/-- The depth-write block of RDP::translate_blend_mode: the Z_UPD bit of
the render_mode argument selects the required value. -/
def RDP.depth_write_stage (s1 : RDPState) (render_mode : Nat) :
    RDPState × List GfxCall × List (Nat × Nat) :=
  guardedUpdate s1
    ((decide (render_mode &&& (1 <<< 5) ≠ 0)) ≠
      s1.rendering_state.depth_write)
    (fun rs =>
      { rs with depth_write := decide (render_mode &&& (1 <<< 5) ≠ 0) })
    (.set_depth_write (decide (render_mode &&& (1 <<< 5) ≠ 0)))

/-- The polygon-offset block of RDP::translate_blend_mode: polygon offset
is required exactly when zmode is ZMODE_DEC. -/
def RDP.polygon_offset_stage (s2 : RDPState) (zmode : Nat) :
    RDPState × List GfxCall × List (Nat × Nat) :=
  guardedUpdate s2
    ((decide (zmode = 3)) ≠ s2.rendering_state.polygon_offset)
    (fun rs => { rs with polygon_offset := decide (zmode = 3) })
    (.set_polygon_offset (decide (zmode = 3)))

/-- The stateful first half of RDP::translate_blend_mode: the
depth-compare, depth-write and polygon-offset guarded updates, in source
order, with zmode read once from other_mode_l at entry (bits 10-11). -/
def RDP.translate_blend_mode_depth (s0 : RDPState) (render_mode : Nat) :
    RDPState × List GfxCall × List (Nat × Nat) :=
  let zmode := s0.other_mode_l >>> 10 &&& 0x03
  let r1 := RDP.depth_compare_stage s0 zmode
  let r2 := RDP.depth_write_stage r1.1 render_mode
  let r3 := RDP.polygon_offset_stage r2.1 zmode
  (r3.1, r1.2.1 ++ r2.2.1 ++ r3.2.1, r1.2.2 ++ r2.2.2 ++ r3.2.2)

/-- The pure blend-factor computation forming the second half of
RDP::translate_blend_mode; it reads only the render_mode argument.  none
models the panic of the failed assert that the source-color selector is
G_BL_CLR_IN while blending is enabled. -/
def RDP.translate_blend_mode_blend (render_mode : Nat) :
    Option BlendState :=
  let src_color := render_mode >>> 28 &&& 0x03
  let src_factor := render_mode >>> 24 &&& 0x03
  let dst_color := render_mode >>> 20 &&& 0x03
  let dst_factor := render_mode >>> 16 &&& 0x03
  let do_blend :=
    render_mode &&& (1 <<< 14) ≠ 0 ∧ dst_color = 1 -- G_BL_CLR_MEM
  if do_blend then
    -- assert that src_color is BlendParamPMColor::G_BL_CLR_IN; a failed
    -- assert is a panic, modelled as none
    if src_color ≠ 0 then none
    else
      let blend_src_factor : BlendFactor :=
        if src_factor = 3 then .Zero -- BlendParamA::G_BL_0
        else if render_mode &&& (1 <<< 13) ≠ 0 ∧
                render_mode &&& (1 <<< 12) = 0 then .One
        else .SrcAlpha
      match RDP.translate_blend_param_b dst_factor blend_src_factor with
      | some d =>
        let blend_component : BlendComponent :=
          { src_factor := blend_src_factor, dst_factor := d,
            operation := .Add }
        some { color := blend_component, alpha := blend_component }
      | none => none
  else
    let blend_component : BlendComponent :=
      { src_factor := .One, dst_factor := .Zero, operation := .Add }
    some { color := blend_component, alpha := blend_component }

/-- RDP::translate_blend_mode, assembled from its depth-state half and its
pure blend half (the source interleaves no effects between them: the
depth-compare, depth-write and polygon-offset updates all precede the
blend-factor computation, which emits no backend calls). -/
def RDP.translate_blend_mode (s0 : RDPState) (render_mode : Nat) :
    RDPState × List GfxCall × List (Nat × Nat) × Option BlendState :=
  let d := RDP.translate_blend_mode_depth s0 render_mode
  (d.1, d.2.1, d.2.2, RDP.translate_blend_mode_blend render_mode)

/-- Modelled from the spec: the RSPGeometry enum lives in the fast3d rsp.rs
module, which is not under src/; the spec describes geometry mode as a
bitmask with a z-buffer-enable flag, and G_ZBUFFER is the standard
low-order flag bit 0x00000001. -/
def RSPGeometry.G_ZBUFFER : Nat := 1

/-- The depth-test guarded update opening RDP::update_render_state: the
required value is the G_ZBUFFER flag of the geometry mode. -/
def RDP.depth_test_stage (s0 : RDPState) (geometry_mode : Nat) :
    RDPState × List GfxCall × List (Nat × Nat) :=
  guardedUpdate s0
    ((decide (geometry_mode &&& RSPGeometry.G_ZBUFFER ≠ 0)) ≠
      s0.rendering_state.depth_test)
    (fun rs =>
      { rs with
        depth_test := decide (geometry_mode &&& RSPGeometry.G_ZBUFFER ≠ 0) })
    (.set_depth_test (decide (geometry_mode &&& RSPGeometry.G_ZBUFFER ≠ 0)))

/-- The blend-state guarded update of RDP::update_render_state. -/
def RDP.blend_state_stage (s2 : RDPState) (blend_state : BlendState) :
    RDPState × List GfxCall × List (Nat × Nat) :=
  guardedUpdate s2 (blend_state ≠ s2.rendering_state.blend_state)
    (fun rs => { rs with blend_state := blend_state })
    (.set_blend_state blend_state)

/-- The viewport and scissor block of RDP::update_render_state, run only
when viewport_or_scissor_changed is set; afterwards the flag is cleared. -/
def RDP.viewport_scissor_stage (s3 : RDPState) :
    RDPState × List GfxCall × List (Nat × Nat) :=
  if s3.viewport_or_scissor_changed then
    let r4 := guardedUpdate s3 (s3.viewport ≠ s3.rendering_state.viewport)
      (fun rs => { rs with viewport := s3.viewport })
      (.set_viewport s3.viewport)
    let r5 := guardedUpdate r4.1
      (r4.1.scissor ≠ r4.1.rendering_state.scissor)
      (fun rs => { rs with scissor := r4.1.scissor })
      (.set_scissor r4.1.scissor)
    ({ r5.1 with viewport_or_scissor_changed := false },
     r4.2.1 ++ r5.2.1, r4.2.2 ++ r5.2.2)
  else (s3, [], [])

/-- RDP::update_render_state from src/fast3d/rdp.rs, assembled from its
stages in source order: the depth-test guarded update from geometry mode,
translate_blend_mode on other_mode_l, the blend-state guarded update, and
the viewport and scissor block.  The vertices argument of the source is
unused by its body and is omitted.  Returns the updated state, the
backend calls, the ghost log of (buf_vbo_len, buf_vbo_num_tris) pairs
observed at snapshot overwrites, and false exactly when
translate_blend_mode panicked (the remaining updates then do not run). -/
def RDP.update_render_state (s0 : RDPState) (geometry_mode : Nat) :
    RDPState × List GfxCall × List (Nat × Nat) × Bool :=
  let r1 := RDP.depth_test_stage s0 geometry_mode
  let s1 := r1.1
  let tb := RDP.translate_blend_mode s1 s1.other_mode_l
  let s2 := tb.1
  match tb.2.2.2 with
  | none => (s2, r1.2.1 ++ tb.2.1, r1.2.2 ++ tb.2.2.1, false)
  | some blend_state =>
    let r3 := RDP.blend_state_stage s2 blend_state
    let r4 := RDP.viewport_scissor_stage r3.1
    (r4.1,
     r1.2.1 ++ tb.2.1 ++ r3.2.1 ++ r4.2.1,
     r1.2.2 ++ tb.2.2.1 ++ r3.2.2 ++ r4.2.2,
     true)

/-- Embedding of the fast3d GBIResult outcome enum as consumed by
RCP::run_dl in src/fast3d/rcp.rs (the match arms there are Recurse,
Unknown, Return and Continue).  Modelled from the spec: the enum is
declared in the fast3d gbi.rs module, which is not under src/; spec 4.1
lists exactly these outcomes (Continue, Recurse(target), Return,
UnknownOpcode(code)). -/
inductive GBIResult where
  | Continue
  | Recurse (target : Nat)
  | Unknown (opcode : Nat)
  | Return
deriving DecidableEq, Repr

/-- One dispatch step as RCP::run_dl sees it: gbi.handle_command receives
the mutable command cursor and returns an outcome; handlers may also
advance the cursor (the source passes the cursor by mutable reference), so
a step maps the cursor to the outcome together with the cursor value after
the handler ran. -/
def GBIStep : Type := Nat → GBIResult × Nat

/-- RCP::run_dl from src/fast3d/rcp.rs, embedded with explicit fuel since
the source loop and its native recursion need not terminate.  The first
component is the list of cursor positions at which commands were
dispatched, in dispatch order, or none if the fuel ran out (covering both
divergence and executions longer than the fuel); the second component is
the maximum depth of native recursion entered during the (possibly
incomplete) execution.  The source semantics per outcome: Recurse runs the
nested list and then falls through to the cursor increment, Unknown logs
and falls through to the increment, Return returns immediately, Continue
falls through to the increment. -/
def RCP.run_dl (step : GBIStep) : Nat → Nat → Option (List Nat) × Nat
  | 0, _ => (none, 0)
  | fuel + 1, pc =>
    match step pc with
    | (GBIResult.Recurse target, pcAfter) =>
      match RCP.run_dl step fuel target with
      | (none, d) => (none, d + 1)
      | (some nested, d) =>
        match RCP.run_dl step fuel (pcAfter + 1) with
        | (r, d2) => (r.map fun rest => pc :: nested ++ rest,
                      max (d + 1) d2)
    | (GBIResult.Unknown _, pcAfter) =>
      match RCP.run_dl step fuel (pcAfter + 1) with
      | (r, d) => (r.map fun rest => pc :: rest, d)
    | (GBIResult.Return, _) => (some [pc], 0)
    | (GBIResult.Continue, pcAfter) =>
      match RCP.run_dl step fuel (pcAfter + 1) with
      | (r, d) => (r.map fun rest => pc :: rest, d)

/-- Embedding of the graphics-module GBIResult enum from
src/graphics/gbi.rs. -/
inductive GraphicsGBIResult where
  | Continue
  | Decrease
  | Increase
  | SetAddressWithDecrease (addr : Nat)
  | Recurse (target : Nat)
  | Return
deriving DecidableEq, Repr

/-- Handler type for the graphics-module opcode table: the RDP/RSP side
effects of a handler are irrelevant to the dispatch claims, so a handler
is modelled as a function of the command word. -/
def GraphicsGBICommand : Type := Nat → GraphicsGBIResult

/-- GBI::handle_command from src/graphics/gbi.rs: the opcode is the high
byte of the first command word; a registered handler is applied, and an
unregistered opcode hits the panic arm, modelled as none (the process
aborts). -/
def GBI.handle_command (table : Nat → Option GraphicsGBICommand)
    (w0 : Nat) : Option GraphicsGBIResult :=
  match table (w0 >>> 24) with
  | some cmd => some (cmd w0)
  | none => none

/-- Handler type for the fast3d opcode table: a handler sees the command
word and the cursor and yields the outcome plus the cursor after any
advancing it performed. -/
def Fast3dGBICommand : Type := Nat → Nat → GBIResult × Nat

/-- Modelled from the spec: the fast3d gbi.rs module (whose handle_command
feeds RCP::run_dl) is not under src/; per spec 4.1 an opcode with no
registered handler yields the non-fatal UnknownOpcode outcome instead of
aborting, and the cursor is left for the ordinary one-command advance. -/
def Fast3dGBI.handle_command (table : Nat → Option Fast3dGBICommand)
    (mem : Nat → Nat) : GBIStep :=
  fun pc =>
    match table (mem pc >>> 24) with
    | some cmd => cmd (mem pc) pc
    | none => (GBIResult.Unknown (mem pc >>> 24), pc)

/-- RDPAddToVBOAndIncrement from src/fast3d/rdp.rs: write the float at
index buf_vbo_len and increment the length.  There is no capacity check
and no flush in the source; the Rust bounds check on the fixed-size array
panics when the buffer is full, modelled as none.  The stored float value
does not affect any claim and is not tracked. -/
def RDPAddToVBOAndIncrement (s : RDPState) : Option RDPState :=
  if s.buf_vbo_len < BUF_VBO_CAPACITY then
    some { s with buf_vbo_len := s.buf_vbo_len + 1 }
  else
    none

/-- RDPIncrementTriangleCountAndReturn from src/fast3d/rdp.rs. -/
def RDPIncrementTriangleCountAndReturn (s : RDPState) : RDPState × Nat :=
  ({ s with buf_vbo_num_tris := s.buf_vbo_num_tris + 1 },
   s.buf_vbo_num_tris + 1)

/-- Iterated vertex append: n successive RDPAddToVBOAndIncrement calls
with no intervening state change, propagating a panic. -/
def appendVBO : Nat → RDPState → Option RDPState
  | 0, s => some s
  | n + 1, s => (appendVBO n s).bind RDPAddToVBOAndIncrement

/-- Embedding of ImageFormat from the fast3d texture utilities.  Modelled
from the spec: utils/texture.rs is not under src/; the constructors and
their discriminants are the standard console values the source names
(RGBA = 0, YUV = 1, CI = 2, IA = 3, I = 4). -/
inductive ImageFormat where
  | G_IM_FMT_RGBA
  | G_IM_FMT_YUV
  | G_IM_FMT_CI
  | G_IM_FMT_IA
  | G_IM_FMT_I
deriving DecidableEq, Repr

/-- The numeric discriminant of an ImageFormat value. -/
def ImageFormat.code : ImageFormat → Nat
  | .G_IM_FMT_RGBA => 0
  | .G_IM_FMT_YUV => 1
  | .G_IM_FMT_CI => 2
  | .G_IM_FMT_IA => 3
  | .G_IM_FMT_I => 4

/-- Embedding of ImageSize.  Modelled from the spec: utils/texture.rs is
not under src/; discriminants are the standard values (4b = 0, 8b = 1,
16b = 2, 32b = 3). -/
inductive ImageSize where
  | G_IM_SIZ_4b
  | G_IM_SIZ_8b
  | G_IM_SIZ_16b
  | G_IM_SIZ_32b
deriving DecidableEq, Repr

/-- The numeric discriminant of an ImageSize value. -/
def ImageSize.code : ImageSize → Nat
  | .G_IM_SIZ_4b => 0
  | .G_IM_SIZ_8b => 1
  | .G_IM_SIZ_16b => 2
  | .G_IM_SIZ_32b => 3

/-- Which translate_tile decoder RDP::import_tile_texture selects for a
tile format and size. -/
inductive TileDecoder where
  | rgba16
  | rgba32
  | ia4
  | ia8
  | ia16
  | i4
  | i8
  | ci4
  | ci8
deriving DecidableEq, Repr

/-- The decoder-selection match of RDP::import_tile_texture from
src/fast3d/rdp.rs: the scrutinee is (format << 4) | size and each arm
compares against a supported format and size pair; the catch-all arm
panics with an unsupported-texture-format message, modelled as none. -/
def RDP.import_tile_texture_decoder (fmt : ImageFormat) (siz : ImageSize) :
    Option TileDecoder :=
  let format := fmt.code
  let size := siz.code
  let key := (format <<< 4) ||| size
  if key = (ImageFormat.G_IM_FMT_RGBA.code <<< 4) |||
           ImageSize.G_IM_SIZ_16b.code then some .rgba16
  else if key = (ImageFormat.G_IM_FMT_RGBA.code <<< 4) |||
                ImageSize.G_IM_SIZ_32b.code then some .rgba32
  else if key = (ImageFormat.G_IM_FMT_IA.code <<< 4) |||
                ImageSize.G_IM_SIZ_4b.code then some .ia4
  else if key = (ImageFormat.G_IM_FMT_IA.code <<< 4) |||
                ImageSize.G_IM_SIZ_8b.code then some .ia8
  else if key = (ImageFormat.G_IM_FMT_IA.code <<< 4) |||
                ImageSize.G_IM_SIZ_16b.code then some .ia16
  else if key = (ImageFormat.G_IM_FMT_I.code <<< 4) |||
                ImageSize.G_IM_SIZ_4b.code then some .i4
  else if key = (ImageFormat.G_IM_FMT_I.code <<< 4) |||
                ImageSize.G_IM_SIZ_8b.code then some .i8
  else if key = (ImageFormat.G_IM_FMT_CI.code <<< 4) |||
                ImageSize.G_IM_SIZ_4b.code then some .ci4
  else if key = (ImageFormat.G_IM_FMT_CI.code <<< 4) |||
                ImageSize.G_IM_SIZ_8b.code then some .ci8
  else none

/-- RDP::lookup_or_create_shader_program from src/fast3d/rdp.rs (the copy
in src/graphics/rdp.rs is identical up to the backend handle type).  The
backend is abstracted by the lookup function (none models a null lookup
result) and the handle returned by create_and_load_new_shader.  Returns
the updated state, the backend calls emitted in order, and the returned
shader handle. -/
def RDP.lookup_or_create_shader_program
    (lookup_shader : Nat → Option Nat)
    (create_and_load_new_shader : Nat → Nat)
    (s : RDPState) (shader_id : Nat) :
    RDPState × List GfxCall × Nat :=
  match lookup_shader shader_id with
  | some shader_program => (s, [], shader_program)
  | none =>
    let shader_program := create_and_load_new_shader shader_id
    ({ s with rendering_state :=
        { s.rendering_state with shader_program := some shader_program } },
     [.unload_shader s.rendering_state.shader_program,
      .create_and_load_new_shader shader_id],
     shader_program)

/-- Well-formedness of the batch counters: an empty batch buffer holds no
triangles.  This holds for RDP::new and is preserved by every embedded
operation except a bare RDPIncrementTriangleCountAndReturn on an empty
buffer, which in the source only ever runs after the triangle's vertex
floats were appended. -/
def BatchInv (s : RDPState) : Prop :=
  s.buf_vbo_len = 0 → s.buf_vbo_num_tris = 0

/-- Every entry of a ghost log shows empty batch counters. -/
def GhostZero (g : List (Nat × Nat)) : Prop := ∀ p ∈ g, p = (0, 0)

theorem ghostZero_nil : GhostZero [] := by
  intro p hp
  cases hp

theorem ghostZero_append {a b : List (Nat × Nat)}
    (ha : GhostZero a) (hb : GhostZero b) : GhostZero (a ++ b) := by
  intro p hp
  rcases List.mem_append.mp hp with h | h
  · exact ha p h
  · exact hb p h

theorem flush_buf_vbo_len (s : RDPState) :
    (RDP.flush s).1.buf_vbo_len = 0 := by
  unfold RDP.flush
  split
  · rfl
  · simp only []
    omega

theorem flush_buf_vbo_num_tris (s : RDPState) (h : BatchInv s) :
    (RDP.flush s).1.buf_vbo_num_tris = 0 := by
  unfold RDP.flush
  split
  · rfl
  · exact h (by omega)

theorem flush_rendering_state (s : RDPState) :
    (RDP.flush s).1.rendering_state = s.rendering_state := by
  unfold RDP.flush
  split <;> rfl

theorem flush_other_fields (s : RDPState) :
    (RDP.flush s).1.other_mode_l = s.other_mode_l ∧
    (RDP.flush s).1.other_mode_h = s.other_mode_h ∧
    (RDP.flush s).1.viewport = s.viewport ∧
    (RDP.flush s).1.scissor = s.scissor ∧
    (RDP.flush s).1.viewport_or_scissor_changed =
      s.viewport_or_scissor_changed := by
  unfold RDP.flush
  split <;> exact ⟨rfl, rfl, rfl, rfl, rfl⟩

theorem guardedUpdate_ghost (s : RDPState) (c : Prop) [Decidable c]
    (ap : RenderingState → RenderingState) (cal : GfxCall)
    (h : BatchInv s) : GhostZero (guardedUpdate s c ap cal).2.2 := by
  unfold guardedUpdate
  split
  · intro p hp
    simp only [List.mem_singleton] at hp
    subst hp
    exact Prod.ext (flush_buf_vbo_len s) (flush_buf_vbo_num_tris s h)
  · exact ghostZero_nil

theorem guardedUpdate_inv (s : RDPState) (c : Prop) [Decidable c]
    (ap : RenderingState → RenderingState) (cal : GfxCall)
    (h : BatchInv s) : BatchInv (guardedUpdate s c ap cal).1 := by
  unfold guardedUpdate
  split
  · intro _
    exact flush_buf_vbo_num_tris s h
  · exact h

theorem guardedUpdate_rendering_state (s : RDPState) (c : Prop)
    [Decidable c] (ap : RenderingState → RenderingState) (cal : GfxCall) :
    (guardedUpdate s c ap cal).1.rendering_state =
      if c then ap s.rendering_state else s.rendering_state := by
  unfold guardedUpdate
  split
  · exact congrArg ap (flush_rendering_state s)
  · rfl

theorem guardedUpdate_other_fields (s : RDPState) (c : Prop) [Decidable c]
    (ap : RenderingState → RenderingState) (cal : GfxCall) :
    (guardedUpdate s c ap cal).1.other_mode_l = s.other_mode_l ∧
    (guardedUpdate s c ap cal).1.other_mode_h = s.other_mode_h ∧
    (guardedUpdate s c ap cal).1.viewport = s.viewport ∧
    (guardedUpdate s c ap cal).1.scissor = s.scissor ∧
    (guardedUpdate s c ap cal).1.viewport_or_scissor_changed =
      s.viewport_or_scissor_changed := by
  unfold guardedUpdate
  split
  · exact (flush_other_fields s)
  · exact ⟨rfl, rfl, rfl, rfl, rfl⟩

theorem depth_compare_stage_ghost_inv (s : RDPState) (zmode : Nat)
    (h : BatchInv s) :
    GhostZero (RDP.depth_compare_stage s zmode).2.2 ∧
      BatchInv (RDP.depth_compare_stage s zmode).1 := by
  unfold RDP.depth_compare_stage
  split
  · exact ⟨guardedUpdate_ghost _ _ _ _ h, guardedUpdate_inv _ _ _ _ h⟩
  · exact ⟨ghostZero_nil, h⟩

theorem depth_write_stage_ghost_inv (s : RDPState) (m : Nat)
    (h : BatchInv s) :
    GhostZero (RDP.depth_write_stage s m).2.2 ∧
      BatchInv (RDP.depth_write_stage s m).1 :=
  ⟨guardedUpdate_ghost _ _ _ _ h, guardedUpdate_inv _ _ _ _ h⟩

theorem polygon_offset_stage_ghost_inv (s : RDPState) (zmode : Nat)
    (h : BatchInv s) :
    GhostZero (RDP.polygon_offset_stage s zmode).2.2 ∧
      BatchInv (RDP.polygon_offset_stage s zmode).1 :=
  ⟨guardedUpdate_ghost _ _ _ _ h, guardedUpdate_inv _ _ _ _ h⟩

theorem depth_test_stage_ghost_inv (s : RDPState) (gm : Nat)
    (h : BatchInv s) :
    GhostZero (RDP.depth_test_stage s gm).2.2 ∧
      BatchInv (RDP.depth_test_stage s gm).1 :=
  ⟨guardedUpdate_ghost _ _ _ _ h, guardedUpdate_inv _ _ _ _ h⟩

theorem blend_state_stage_ghost_inv (s : RDPState) (bs : BlendState)
    (h : BatchInv s) :
    GhostZero (RDP.blend_state_stage s bs).2.2 ∧
      BatchInv (RDP.blend_state_stage s bs).1 :=
  ⟨guardedUpdate_ghost _ _ _ _ h, guardedUpdate_inv _ _ _ _ h⟩

theorem viewport_scissor_stage_ghost_inv (s : RDPState) (h : BatchInv s) :
    GhostZero (RDP.viewport_scissor_stage s).2.2 ∧
      BatchInv (RDP.viewport_scissor_stage s).1 := by
  unfold RDP.viewport_scissor_stage
  split
  · have h4 := guardedUpdate_inv s
      (s.viewport ≠ s.rendering_state.viewport)
      (fun rs => { rs with viewport := s.viewport })
      (.set_viewport s.viewport) h
    refine ⟨ghostZero_append (guardedUpdate_ghost _ _ _ _ h)
      (guardedUpdate_ghost _ _ _ _ h4), ?_⟩
    exact guardedUpdate_inv _ _ _ _ h4
  · exact ⟨ghostZero_nil, h⟩

theorem translate_blend_mode_ghost_inv (s : RDPState) (m : Nat)
    (h : BatchInv s) :
    GhostZero (RDP.translate_blend_mode s m).2.2.1 ∧
      BatchInv (RDP.translate_blend_mode s m).1 := by
  obtain ⟨g1, i1⟩ := depth_compare_stage_ghost_inv s
    (s.other_mode_l >>> 10 &&& 0x03) h
  obtain ⟨g2, i2⟩ := depth_write_stage_ghost_inv
    (RDP.depth_compare_stage s (s.other_mode_l >>> 10 &&& 0x03)).1 m i1
  obtain ⟨g3, i3⟩ := polygon_offset_stage_ghost_inv
    (RDP.depth_write_stage
      (RDP.depth_compare_stage s (s.other_mode_l >>> 10 &&& 0x03)).1 m).1
    (s.other_mode_l >>> 10 &&& 0x03) i2
  exact ⟨ghostZero_append (ghostZero_append g1 g2) g3, i3⟩

/-- Claim C1: whenever update_render_state (or the translate_blend_mode
it calls) overwrites any field of the RenderingState snapshot -
depth_test, depth_compare, depth_write, polygon_offset, blend_state,
viewport, or scissor - the pending batch has been flushed first: the
ghost log, which records (buf_vbo_len, buf_vbo_num_tris) at the exact
moment each snapshot field is overwritten, contains only (0, 0).  The
hypothesis is the batch-counter well-formedness invariant (an empty
buffer holds no triangles), which holds in RDP::new and is maintained by
the triangle-append protocol. -/
theorem C1_update_render_state_flushes_before_snapshot_overwrite
    (s : RDPState) (gm : Nat) (h : BatchInv s) :
    GhostZero (RDP.update_render_state s gm).2.2.1 := by
  obtain ⟨g1, i1⟩ := depth_test_stage_ghost_inv s gm h
  obtain ⟨gT, iT⟩ := translate_blend_mode_ghost_inv
    (RDP.depth_test_stage s gm).1
    (RDP.depth_test_stage s gm).1.other_mode_l i1
  simp only [RDP.update_render_state]
  split
  · exact ghostZero_append g1 gT
  · rename_i bs _
    obtain ⟨g3, i3⟩ := blend_state_stage_ghost_inv
      (RDP.translate_blend_mode (RDP.depth_test_stage s gm).1
        (RDP.depth_test_stage s gm).1.other_mode_l).1 bs iT
    obtain ⟨g4, _⟩ := viewport_scissor_stage_ghost_inv
      (RDP.blend_state_stage
        (RDP.translate_blend_mode (RDP.depth_test_stage s gm).1
          (RDP.depth_test_stage s gm).1.other_mode_l).1 bs).1 i3
    exact ghostZero_append
      (ghostZero_append (ghostZero_append g1 gT) g3) g4

theorem depth_compare_stage_rs (s : RDPState) (zmode : Nat) :
    (RDP.depth_compare_stage s zmode).1.rendering_state =
      if s.other_mode_l &&& (1 <<< 4) ≠ 0 then
        { s.rendering_state with
          depth_compare :=
            if zmode = 3 then CompareFunction.LessEqual else .Less }
      else s.rendering_state := by
  unfold RDP.depth_compare_stage
  by_cases hc : s.other_mode_l &&& (1 <<< 4) ≠ 0
  · rw [if_pos hc, if_pos hc, guardedUpdate_rendering_state]
    by_cases hch : (if zmode = 3 then CompareFunction.LessEqual
        else .Less) ≠ s.rendering_state.depth_compare
    · rw [if_pos hch]
    · rw [if_neg hch, not_not.mp hch]
  · rw [if_neg hc, if_neg hc]

theorem depth_write_stage_rs (s : RDPState) (m : Nat) :
    (RDP.depth_write_stage s m).1.rendering_state =
      { s.rendering_state with
        depth_write := decide (m &&& (1 <<< 5) ≠ 0) } := by
  unfold RDP.depth_write_stage
  rw [guardedUpdate_rendering_state]
  by_cases hch : (decide (m &&& (1 <<< 5) ≠ 0)) ≠
      s.rendering_state.depth_write
  · rw [if_pos hch]
  · rw [if_neg hch, not_not.mp hch]

theorem polygon_offset_stage_rs (s : RDPState) (zmode : Nat) :
    (RDP.polygon_offset_stage s zmode).1.rendering_state =
      { s.rendering_state with
        polygon_offset := decide (zmode = 3) } := by
  unfold RDP.polygon_offset_stage
  rw [guardedUpdate_rendering_state]
  by_cases hch : (decide (zmode = 3)) ≠ s.rendering_state.polygon_offset
  · rw [if_pos hch]
  · rw [if_neg hch, not_not.mp hch]

theorem depth_compare_stage_other_mode_l (s : RDPState) (zmode : Nat) :
    (RDP.depth_compare_stage s zmode).1.other_mode_l = s.other_mode_l := by
  unfold RDP.depth_compare_stage
  split
  · exact (guardedUpdate_other_fields _ _ _ _).1
  · rfl

theorem depth_write_stage_other_mode_l (s : RDPState) (m : Nat) :
    (RDP.depth_write_stage s m).1.other_mode_l = s.other_mode_l :=
  (guardedUpdate_other_fields _ _ _ _).1

theorem translate_depth_fields (s : RDPState) (m : Nat) :
    ((RDP.translate_blend_mode_depth s m).1.rendering_state.depth_compare =
      if s.other_mode_l &&& (1 <<< 4) ≠ 0 then
        (if s.other_mode_l >>> 10 &&& 0x03 = 3 then
          CompareFunction.LessEqual else .Less)
      else s.rendering_state.depth_compare) ∧
    ((RDP.translate_blend_mode_depth s m).1.rendering_state.depth_write =
      decide (m &&& (1 <<< 5) ≠ 0)) ∧
    ((RDP.translate_blend_mode_depth s m).1.rendering_state.polygon_offset =
      decide (s.other_mode_l >>> 10 &&& 0x03 = 3)) := by
  simp only [RDP.translate_blend_mode_depth]
  rw [polygon_offset_stage_rs, depth_write_stage_rs, depth_compare_stage_rs]
  refine ⟨?_, rfl, rfl⟩
  by_cases hc : s.other_mode_l &&& (1 <<< 4) ≠ 0
  · rw [if_pos hc, if_pos hc]
  · rw [if_neg hc, if_neg hc]

/-- Claim C2: for every other_mode_l value (both values of the Z_CMP bit
included), translate_blend_mode realizes the documented depth table.
When the Z_CMP bit (bit 4) is set, the snapshotted depth-compare function
is Less for zmode OPA, INTER and XLU (values 0-2 of bits 10-11) and
LessEqual for DEC (value 3); when Z_CMP is clear the depth-compare
snapshot is left untouched.  Depth write is enabled exactly when the
Z_UPD bit (bit 5) is set, and polygon offset exactly when zmode is DEC -
both independent of Z_CMP.  Stated at the call site of
update_render_state, where render_mode is other_mode_l. -/
theorem C2_translate_blend_mode_depth_table (s : RDPState) :
    ((s.other_mode_l &&& (1 <<< 4) ≠ 0 →
      (RDP.translate_blend_mode s
        s.other_mode_l).1.rendering_state.depth_compare =
        (if s.other_mode_l >>> 10 &&& 0x03 = 3 then
          CompareFunction.LessEqual else .Less))) ∧
    ((s.other_mode_l &&& (1 <<< 4) = 0 →
      (RDP.translate_blend_mode s
        s.other_mode_l).1.rendering_state.depth_compare =
        s.rendering_state.depth_compare)) ∧
    ((RDP.translate_blend_mode s
        s.other_mode_l).1.rendering_state.depth_write =
      decide (s.other_mode_l &&& (1 <<< 5) ≠ 0)) ∧
    ((RDP.translate_blend_mode s
        s.other_mode_l).1.rendering_state.polygon_offset =
      decide (s.other_mode_l >>> 10 &&& 0x03 = 3)) := by
  have e : (RDP.translate_blend_mode s s.other_mode_l).1 =
      (RDP.translate_blend_mode_depth s s.other_mode_l).1 := rfl
  obtain ⟨h1, h2, h3⟩ := translate_depth_fields s s.other_mode_l
  rw [e] at *
  refine ⟨?_, ?_, h2, h3⟩
  · intro hz
    rw [h1, if_pos hz]
  · intro hz
    rw [h1, if_neg (fun hne => hne hz)]

/-- Witness for C2 at a concrete state: other_mode_l = 3088 has the Z_CMP
bit set and zmode = DEC, so the snapshotted depth-compare function after
translate_blend_mode is LessEqual. -/
theorem C2_witness :
    (RDP.translate_blend_mode { RDP.new with other_mode_l := 3088 }
      ({ RDP.new with other_mode_l := 3088 } :
        RDPState).other_mode_l).1.rendering_state.depth_compare =
      CompareFunction.LessEqual := by
  have h := (C2_translate_blend_mode_depth_table
    { RDP.new with other_mode_l := 3088 }).1 (by decide)
  rw [h]
  decide

/-- Witness for C1 at a concrete state: one triangle (78 floats) is
pending and geometry mode 1 enables the depth test, which differs from
the empty snapshot, so a snapshot overwrite occurs; every ghost entry is
(0, 0). -/
theorem C1_witness :
    GhostZero (RDP.update_render_state
      { RDP.new with buf_vbo_len := 78, buf_vbo_num_tris := 1 }
      1).2.2.1 :=
  C1_update_render_state_flushes_before_snapshot_overwrite
    { RDP.new with buf_vbo_len := 78, buf_vbo_num_tris := 1 } 1
    (fun h => absurd h (by decide))

/-- The destination-factor four-case table exactly as the spec's sentence
states it, written from the spec's words for comparison against the
code: one-minus-source-alpha unless the source factor is One (then
zero); destination-alpha; one; zero. -/
def specBlendDstFactorTable (b : Nat) (src : BlendFactor) : BlendFactor :=
  if b = 0 then (if src = .One then .Zero else .OneMinusSrcAlpha)
  else if b = 1 then .DstAlpha
  else if b = 2 then .One
  else .Zero

/-- Counterexample to claim C3 as stated, at other_mode_l = 51396608
(FORCE_BL set, destination-color selector G_BL_CLR_MEM, alpha selector
G_BL_0 so the blend source factor is Zero, B field G_BL_1MA,
source-color selector G_BL_CLR_IN): blending is enabled and the code
produces destination factor One, while the claim's four-case table
demands one-minus-source-alpha because the source factor Zero is not
One. -/
theorem C3_counterexample :
    RDP.translate_blend_mode_blend 51396608 =
      some { color := { src_factor := .Zero, dst_factor := .One,
                        operation := .Add }
             alpha := { src_factor := .Zero, dst_factor := .One,
                        operation := .Add } } ∧
    specBlendDstFactorTable (51396608 >>> 16 &&& 0x03) .Zero =
      .OneMinusSrcAlpha ∧
    BlendFactor.One ≠ BlendFactor.OneMinusSrcAlpha := by
  refine ⟨by decide, by decide, by decide⟩

/-- The blend decision exactly as the amended claim C3 states it:
blending is enabled iff FORCE_BL (bit 14) is set and the
destination-color selector (bits 20-21) is G_BL_CLR_MEM, otherwise
opaque replace (One, Zero); when blending is enabled the code panics
unless the source-color selector (bits 28-29) is G_BL_CLR_IN; the source
factor is Zero when the alpha selector (bits 24-25) is G_BL_0, One when
ALPHA_CVG_SEL (bit 13) is set without CVG_X_ALPHA (bit 12), otherwise
SrcAlpha; and the destination factor follows the code's four-case table
on the B field (bits 16-17): for G_BL_1MA it is OneMinusSrcAlpha when
the source factor is SrcAlpha, Zero when the source factor is One, and
One otherwise (in particular when the source factor is Zero, where the
spec's table instead demanded OneMinusSrcAlpha); then DstAlpha, One,
Zero. -/
def amendedBlendTable (m : Nat) : Option BlendState :=
  let src_factor :=
    if m >>> 24 &&& 0x03 = 3 then BlendFactor.Zero
    else if m &&& (1 <<< 13) ≠ 0 ∧ m &&& (1 <<< 12) = 0 then .One
    else .SrcAlpha
  let dst_factor :=
    if m >>> 16 &&& 0x03 = 0 then
      (if src_factor = .SrcAlpha then BlendFactor.OneMinusSrcAlpha
       else if src_factor = .One then .Zero else .One)
    else if m >>> 16 &&& 0x03 = 1 then .DstAlpha
    else if m >>> 16 &&& 0x03 = 2 then .One
    else .Zero
  if m &&& (1 <<< 14) ≠ 0 ∧ m >>> 20 &&& 0x03 = 1 then
    if m >>> 28 &&& 0x03 ≠ 0 then none
    else some { color := { src_factor := src_factor,
                           dst_factor := dst_factor, operation := .Add }
                alpha := { src_factor := src_factor,
                           dst_factor := dst_factor, operation := .Add } }
  else
    some { color := { src_factor := .One, dst_factor := .Zero,
                      operation := .Add }
           alpha := { src_factor := .One, dst_factor := .Zero,
                      operation := .Add } }

/-- Claim C3 (amended): for every other_mode_l value, the blend half of
translate_blend_mode computes exactly the amendedBlendTable: enable
condition and source factor as the claim stated them, the panic of the
source assert made explicit, and the destination-factor case
G_BL_1MA-with-source-Zero yielding One instead of the claimed
OneMinusSrcAlpha. -/
theorem C3_amended_blend_table (m : Nat) :
    RDP.translate_blend_mode_blend m = amendedBlendTable m := by
  unfold RDP.translate_blend_mode_blend amendedBlendTable
    RDP.translate_blend_param_b
  have hb : m >>> 16 &&& 0x03 ≤ 3 := Nat.and_le_right
  dsimp only
  split_ifs <;> first | rfl | omega

/-- Counterexample to claim C4 as stated: GBI::handle_command in
src/graphics/gbi.rs hits its panic arm (modelled none, a process abort)
when the opcode byte of the command word has no registered handler,
rather than reporting the opcode and advancing past one command; shown
for command word 0 against a table with no registered handlers. -/
theorem C4_counterexample :
    GBI.handle_command (fun _ => none) 0 = none := rfl

/-- Claim C4 (amended): in the fast3d pipeline the claimed behavior
holds: an opcode with no registered handler yields the Unknown outcome
from the spec-modelled fast3d dispatch, and RCP::run_dl logs it and
advances past exactly one command, continuing interpretation at the next
cursor position; the graphics-module GBI::handle_command, by contrast,
panics on such a command (see the counterexample). -/
theorem C4_amended_fast3d_unknown_opcode_skips_one
    (table : Nat → Option Fast3dGBICommand) (mem : Nat → Nat)
    (pc fuel : Nat) (h : table (mem pc >>> 24) = none) :
    Fast3dGBI.handle_command table mem pc =
      (GBIResult.Unknown (mem pc >>> 24), pc) ∧
    RCP.run_dl (Fast3dGBI.handle_command table mem) (fuel + 1) pc =
      ((RCP.run_dl (Fast3dGBI.handle_command table mem) fuel
          (pc + 1)).1.map fun rest => pc :: rest,
       (RCP.run_dl (Fast3dGBI.handle_command table mem) fuel
          (pc + 1)).2) := by
  have hstep : Fast3dGBI.handle_command table mem pc =
      (GBIResult.Unknown (mem pc >>> 24), pc) := by
    unfold Fast3dGBI.handle_command
    rw [h]
  refine ⟨hstep, ?_⟩
  rw [RCP.run_dl, hstep]

/-- An opcode table registering only opcode 1, whose handler terminates
the display list. -/
def unknownThenReturnTable : Nat → Option Fast3dGBICommand :=
  fun op => if op = 1 then some (fun _ pc => (GBIResult.Return, pc))
            else none

/-- A command memory with an unregistered opcode 0 command at cursor 0
and an opcode 1 command at every later cursor. -/
def unknownThenReturnMem : Nat → Nat :=
  fun pc => if pc = 0 then 0 else 16777216

/-- Witness for the amended claim C4: with opcode 0 unregistered at
cursor 0 and a terminating command at cursor 1, interpretation reports
the unknown opcode at 0, advances past exactly that one command, and
completes at cursor 1. -/
theorem C4_witness :
    RCP.run_dl
      (Fast3dGBI.handle_command unknownThenReturnTable
        unknownThenReturnMem) 2 0 = (some [0, 1], 0) := by
  have h := C4_amended_fast3d_unknown_opcode_skips_one
    unknownThenReturnTable unknownThenReturnMem 0 1 rfl
  rw [h.2]
  rfl

/-- Claim C5: when the handler at the call site yields Recurse(target),
run_dl first interprets the nested display list at target to completion
(its Return), and only then resumes at the command immediately following
the call site: the visited-cursor trace is the call site, then the whole
nested trace, then the trace of the continuation starting one past the
(possibly handler-advanced) call-site cursor - call/return discipline,
not a tail jump, at any nesting depth. -/
theorem C5_run_dl_recurse_resumes_after_call_site
    (step : GBIStep) (fuel pc target pcAfter d1 d2 : Nat)
    (nested rest : List Nat)
    (hstep : step pc = (GBIResult.Recurse target, pcAfter))
    (hnested : RCP.run_dl step fuel target = (some nested, d1))
    (hrest : RCP.run_dl step fuel (pcAfter + 1) = (some rest, d2)) :
    RCP.run_dl step (fuel + 1) pc =
      (some (pc :: nested ++ rest), max (d1 + 1) d2) := by
  rw [RCP.run_dl, hstep]
  dsimp only
  rw [hnested]
  dsimp only
  rw [hrest]
  rfl

/-- A display list with two levels of nesting: the command at cursor 0
calls the list at cursor 10, whose first command calls the list at
cursor 20; every other command terminates its list. -/
def twoLevelStep : GBIStep := fun pc =>
  if pc = 0 then (GBIResult.Recurse 10, 0)
  else if pc = 10 then (GBIResult.Recurse 20, 10)
  else (GBIResult.Return, pc)

/-- Witness for C5 with two levels of nesting: the outer list at 0 calls
10, which calls 20; the trace shows the inner list completing at 20,
resumption at 11 (one past the inner call site), and resumption at 1
(one past the outer call site). -/
theorem C5_witness :
    RCP.run_dl twoLevelStep 4 0 = (some [0, 10, 20, 11, 1], 2) := by
  have h := C5_run_dl_recurse_resumes_after_call_site twoLevelStep 3
    0 10 0 1 0 [10, 20, 11] [1] rfl (by rfl) (by rfl)
  exact h

/-- The dispatch step of a display list whose single command is a
Recurse to its own address: the malformed self-referential list of the
claim. -/
def selfLoopStep : GBIStep := fun _ => (GBIResult.Recurse 0, 0)

theorem run_dl_selfLoop (fuel : Nat) :
    RCP.run_dl selfLoopStep fuel 0 = (none, fuel) := by
  induction fuel with
  | zero => rfl
  | succ n ih =>
    rw [RCP.run_dl]
    show (match RCP.run_dl selfLoopStep n 0 with
      | (none, d) => (none, d + 1)
      | (some nested, d) =>
        match RCP.run_dl selfLoopStep n (0 + 1) with
        | (r, d2) => (r.map fun rest => 0 :: nested ++ rest,
                      max (d + 1) d2)) = (none, n + 1)
    rw [ih]

/-- Counterexample to claim C6 as stated: there is no bound on the
native recursion depth of run_dl - for every candidate bound B, the
self-referential display list drives the recursion deeper than B (the
source recurses natively with no depth counter and no explicit call
stack). -/
theorem C6_counterexample :
    ¬ ∃ B : Nat, ∀ (step : GBIStep) (fuel pc : Nat),
        (RCP.run_dl step fuel pc).2 ≤ B := by
  rintro ⟨B, hB⟩
  have h := hB selfLoopStep (B + 1) 0
  rw [run_dl_selfLoop] at h
  omega

/-- Claim C6 (amended): run_dl recurses natively without any depth bound
or explicit call stack: on the self-referential display list the
recursion depth reached grows without limit - it exceeds every B within
B + 1 steps, so a corrupt or adversarial list causes unbounded native
recursion. -/
theorem C6_amended_run_dl_recursion_unbounded (B : Nat) :
    B < (RCP.run_dl selfLoopStep (B + 1) 0).2 := by
  rw [run_dl_selfLoop]
  omega

theorem appendVBO_from_new (n : Nat) :
    appendVBO n RDP.new =
      if n ≤ BUF_VBO_CAPACITY then
        some { RDP.new with buf_vbo_len := n }
      else none := by
  induction n with
  | zero => rfl
  | succ n ih =>
    have hcap : BUF_VBO_CAPACITY = 19968 := rfl
    rw [appendVBO, ih]
    by_cases h1 : n + 1 ≤ BUF_VBO_CAPACITY
    · rw [if_pos h1, if_pos (by omega : n ≤ BUF_VBO_CAPACITY)]
      unfold RDPAddToVBOAndIncrement
      rw [Option.some_bind]
      rw [if_pos (show ({ RDP.new with buf_vbo_len := n } :
        RDPState).buf_vbo_len < BUF_VBO_CAPACITY by
          show n < BUF_VBO_CAPACITY
          omega)]
    · rw [if_neg h1]
      by_cases h2 : n ≤ BUF_VBO_CAPACITY
      · rw [if_pos h2]
        unfold RDPAddToVBOAndIncrement
        rw [Option.some_bind]
        rw [if_neg (show ¬ ({ RDP.new with buf_vbo_len := n } :
          RDPState).buf_vbo_len < BUF_VBO_CAPACITY by
            show ¬ n < BUF_VBO_CAPACITY
            omega)]
      · rw [if_neg h2]
        rfl

/-- Counterexample to claim C7 as stated: RDPAddToVBOAndIncrement
performs no capacity check and no flush (it does not even receive the
graphics context needed to call flush, and emits no backend call): from
a fresh RDP, the buffer can be filled to exactly its declared capacity
of 19968 floats, and the very next append - the one the claim says must
be preceded by a flush - panics on the Rust array bounds check instead
(modelled none). -/
theorem C7_counterexample :
    appendVBO BUF_VBO_CAPACITY RDP.new =
      some { RDP.new with buf_vbo_len := BUF_VBO_CAPACITY } ∧
    appendVBO (BUF_VBO_CAPACITY + 1) RDP.new = none := by
  constructor
  · rw [appendVBO_from_new, if_pos (le_refl BUF_VBO_CAPACITY)]
  · rw [appendVBO_from_new, if_neg (by omega)]

/-- Claim C7 (amended): the vertex-append operation itself contains no
flush: it succeeds, incrementing buf_vbo_len by one, exactly while the
buffer is strictly below the declared capacity MAX_VBO_SIZE * 26 * 3,
so successful appends never push buf_vbo_len past the capacity; an
append at capacity does not flush but panics on the array bounds check
(none), aborting the process. -/
theorem C7_amended_append_bounds (s : RDPState) :
    (RDPAddToVBOAndIncrement s = none ↔
      BUF_VBO_CAPACITY ≤ s.buf_vbo_len) ∧
    (∀ s2, RDPAddToVBOAndIncrement s = some s2 →
      s2.buf_vbo_len = s.buf_vbo_len + 1 ∧
      s2.buf_vbo_len ≤ BUF_VBO_CAPACITY) := by
  unfold RDPAddToVBOAndIncrement
  constructor
  · by_cases h : s.buf_vbo_len < BUF_VBO_CAPACITY
    · rw [if_pos h]
      constructor
      · intro hx
        cases hx
      · intro hx
        omega
    · rw [if_neg h]
      constructor
      · intro _
        omega
      · intro _
        rfl
  · intro s2 hx
    by_cases h : s.buf_vbo_len < BUF_VBO_CAPACITY
    · rw [if_pos h] at hx
      cases hx
      refine ⟨rfl, ?_⟩
      show s.buf_vbo_len + 1 ≤ BUF_VBO_CAPACITY
      omega
    · rw [if_neg h] at hx
      cases hx

/-- Witness for the amended claim C7: appending to a fresh RDP succeeds
and leaves the length at one, within capacity. -/
theorem C7_witness :
    ({ RDP.new with buf_vbo_len := 1 } : RDPState).buf_vbo_len =
      RDP.new.buf_vbo_len + 1 ∧
    ({ RDP.new with buf_vbo_len := 1 } : RDPState).buf_vbo_len ≤
      BUF_VBO_CAPACITY :=
  (C7_amended_append_bounds RDP.new).2
    { RDP.new with buf_vbo_len := 1 } (by decide)

/-- Counterexample to claim C8 as stated: for the tile format and size
pair (RGBA, 4-bit), which is outside the supported combinations,
import_tile_texture reaches the catch-all panic arm (modelled none) -
the process terminates, and no reportable error is surfaced to the
caller of run (the source functions return no error type at all). -/
theorem C8_counterexample :
    RDP.import_tile_texture_decoder .G_IM_FMT_RGBA .G_IM_SIZ_4b =
      none := rfl

/-- Claim C8 (amended): import_tile_texture selects a decoder exactly
for the supported combinations RGBA 16/32-bit, IA 4/8/16-bit, I 4/8-bit
and CI 4/8-bit; every other format and size pair hits the panic arm,
which terminates the process - the fault is fatal in the reference
behavior (as spec section 7 itself records), not surfaced as a
reportable error. -/
theorem C8_amended_decoder_dispatch (f : ImageFormat) (s : ImageSize) :
    (RDP.import_tile_texture_decoder f s).isSome ↔
      (f = .G_IM_FMT_RGBA ∧
        (s = .G_IM_SIZ_16b ∨ s = .G_IM_SIZ_32b)) ∨
      (f = .G_IM_FMT_IA ∧
        (s = .G_IM_SIZ_4b ∨ s = .G_IM_SIZ_8b ∨ s = .G_IM_SIZ_16b)) ∨
      (f = .G_IM_FMT_I ∧ (s = .G_IM_SIZ_4b ∨ s = .G_IM_SIZ_8b)) ∨
      (f = .G_IM_FMT_CI ∧ (s = .G_IM_SIZ_4b ∨ s = .G_IM_SIZ_8b)) := by
  cases f <;> cases s <;> decide

/-- Counterexample to claim C9 as stated: RDP::reset does not restore a
freshly constructed RDP - starting from a state whose other_mode_l is 5,
the reset performed at the top of RCP::run leaves the state unchanged
and different from RDP::new, whose other_mode_l is 0. -/
theorem C9_counterexample :
    RDP.reset { RDP.new with other_mode_l := 5 } ≠ RDP.new ∧
    (RDP.reset { RDP.new with other_mode_l := 5 }).other_mode_l = 5 ∧
    RDP.new.other_mode_l = 0 := by
  refine ⟨by decide, rfl, rfl⟩

/-- Claim C9 (amended): RCP::run does call reset before interpreting,
but RDP::reset has an empty body, so it is the identity: every RDP field
(other_mode_l, other_mode_h, combine, the batch counters, the
RenderingState snapshot) retains whatever value the previous run left
behind rather than the freshly constructed values. -/
theorem C9_amended_reset_is_noop (s : RDPState) : RDP.reset s = s := rfl

/-- Claim C10: in lookup_or_create_shader_program, a cache hit (a
non-null lookup) returns the found handle with the state unchanged and
no backend call - in particular nothing is unloaded and the snapshotted
shader_program is untouched; only on a miss (null lookup) is the
currently snapshotted shader program unloaded first, then the new shader
created and loaded, and only then does the snapshot take the newly
created handle. -/
theorem C10_lookup_or_create_shader_program_cache
    (lookup_shader : Nat → Option Nat)
    (create_and_load_new_shader : Nat → Nat)
    (s : RDPState) (shader_id : Nat) :
    (∀ h0, lookup_shader shader_id = some h0 →
      RDP.lookup_or_create_shader_program lookup_shader
        create_and_load_new_shader s shader_id = (s, [], h0)) ∧
    (lookup_shader shader_id = none →
      RDP.lookup_or_create_shader_program lookup_shader
        create_and_load_new_shader s shader_id =
        ({ s with rendering_state :=
            { s.rendering_state with
              shader_program :=
                some (create_and_load_new_shader shader_id) } },
         [.unload_shader s.rendering_state.shader_program,
          .create_and_load_new_shader shader_id],
         create_and_load_new_shader shader_id)) := by
  constructor
  · intro h0 hh
    unfold RDP.lookup_or_create_shader_program
    rw [hh]
  · intro hh
    unfold RDP.lookup_or_create_shader_program
    rw [hh]

/-- Witness for C10 on a cache hit: a lookup that finds handle 7 returns
it with the state unchanged and no backend calls. -/
theorem C10_witness :
    RDP.lookup_or_create_shader_program (fun _ => some 7)
      (fun i => i + 100) RDP.new 5 = (RDP.new, [], 7) :=
  (C10_lookup_or_create_shader_program_cache (fun _ => some 7)
    (fun i => i + 100) RDP.new 5).1 7 rfl
